import Mathlib

/-!
Verification development for the HTTP-to-RPC gateway of the
Data-collector-ADIA front end (`proxy_server.py`).

The gateway is shallowly embedded: Python dictionaries parsed from JSON
bodies become a `Json` inductive, the two gRPC backends become records of
pure functions returning `Except GrpcError _`, the handler methods of
`ProxyHandler` become pure functions that return the HTTP response they
would emit together with the list of RPC calls they issued, and the
module-level channel cache becomes explicit state passing over a
`ChannelState` record.  Python's `json.loads` and `int(...)` are embedded
as executable parsers (`json_loads`, `py_int`); numeric JSON literals are
modelled as integers (floating point is out of scope), and URL
percent-decoding in `parse_qs` is omitted — no claim depends on either.
-/

namespace Proxy

/-- JSON values as produced by Python's json module (numbers restricted
to integers). -/
inductive Json where
  | null : Json
  | bool (b : Bool) : Json
  | num (n : Int) : Json
  | str (s : String) : Json
  | arr (xs : List Json) : Json
  | obj (fields : List (String × Json)) : Json

/-- Lookup of a key in a JSON object's field list: `dict.get(k)` on the
dictionary `json.loads` produced (first occurrence wins, as in a dict
built by the parser). -/
def get_field (fields : List (String × Json)) (k : String) : Option Json :=
  (fields.find? (fun p => p.1 == k)).map (fun p => p.2)

/-- Field lookup on a `Json` value that is an object. -/
def json_get_field (j : Json) (k : String) : Option Json :=
  match j with
  | Json.obj fields => get_field fields k
  | _ => none

/-! ### Embedding of `json.loads` (recursive-descent, fuelled) -/

/-- Skip JSON whitespace. -/
def skip_ws : List Char → List Char
  | [] => []
  | c :: t => if c == ' ' || c == '\t' || c == '\n' || c == '\r' then skip_ws t else c :: t

/-- Parse the characters of a JSON string literal after the opening
quote; returns the decoded characters and the remainder after the
closing quote. -/
def parse_jstring_chars : List Char → Option (List Char × List Char)
  | [] => none
  | '"' :: rest => some ([], rest)
  | '\\' :: e :: rest =>
    let esc : Option Char :=
      if e == '"' then some '"'
      else if e == '\\' then some '\\'
      else if e == '/' then some '/'
      else if e == 'n' then some '\n'
      else if e == 't' then some '\t'
      else if e == 'r' then some '\r'
      else if e == 'b' then some (Char.ofNat 8)
      else if e == 'f' then some (Char.ofNat 12)
      else none
    match esc with
    | none => none
    | some c =>
      match parse_jstring_chars rest with
      | none => none
      | some (cs, rem) => some (c :: cs, rem)
  | c :: rest =>
    match parse_jstring_chars rest with
    | none => none
    | some (cs, rem) => some (c :: cs, rem)

/-- Value of a non-empty digit string. -/
def digits_val (l : List Char) : Nat :=
  l.foldl (fun acc c => acc * 10 + (c.toNat - 48)) 0

/-- Parse a run of decimal digits. -/
def parse_jdigits (l : List Char) : Option (Nat × List Char) :=
  let ds := l.takeWhile (fun c => c.isDigit)
  if ds.isEmpty then none
  else some (digits_val ds, l.dropWhile (fun c => c.isDigit))

mutual

/-- Parse one JSON value (fuelled so the recursion is structural). -/
def parse_jvalue : Nat → List Char → Option (Json × List Char)
  | 0, _ => none
  | fuel + 1, l =>
    match skip_ws l with
    | 'n' :: 'u' :: 'l' :: 'l' :: rest => some (Json.null, rest)
    | 't' :: 'r' :: 'u' :: 'e' :: rest => some (Json.bool true, rest)
    | 'f' :: 'a' :: 'l' :: 's' :: 'e' :: rest => some (Json.bool false, rest)
    | '"' :: rest =>
      (parse_jstring_chars rest).map (fun r => (Json.str (String.mk r.1), r.2))
    | '[' :: rest =>
      match skip_ws rest with
      | ']' :: rem => some (Json.arr [], rem)
      | _ => (parse_jitems fuel rest).map (fun r => (Json.arr r.1, r.2))
    | '\x7b' :: rest =>
      match skip_ws rest with
      | '\x7d' :: rem => some (Json.obj [], rem)
      | _ => (parse_jmembers fuel rest).map (fun r => (Json.obj r.1, r.2))
    | '-' :: rest =>
      (parse_jdigits rest).map (fun r => (Json.num (-(r.1 : Int)), r.2))
    | c :: rest =>
      if c.isDigit then (parse_jdigits (c :: rest)).map (fun r => (Json.num (r.1 : Int), r.2))
      else none
    | [] => none

/-- Parse the comma-separated items of a non-empty JSON array, including
the closing bracket. -/
def parse_jitems : Nat → List Char → Option (List Json × List Char)
  | 0, _ => none
  | fuel + 1, l =>
    match parse_jvalue fuel l with
    | none => none
    | some (v, rem) =>
      match skip_ws rem with
      | ',' :: rest => (parse_jitems fuel rest).map (fun r => (v :: r.1, r.2))
      | ']' :: rest => some ([v], rest)
      | _ => none

/-- Parse the members of a non-empty JSON object, including the closing
brace. -/
def parse_jmembers : Nat → List Char → Option (List (String × Json) × List Char)
  | 0, _ => none
  | fuel + 1, l =>
    match skip_ws l with
    | '"' :: rest =>
      match parse_jstring_chars rest with
      | none => none
      | some (kcs, rem) =>
        match skip_ws rem with
        | ':' :: rest2 =>
          match parse_jvalue fuel rest2 with
          | none => none
          | some (v, rem2) =>
            match skip_ws rem2 with
            | ',' :: rest3 =>
              (parse_jmembers fuel rest3).map (fun r => ((String.mk kcs, v) :: r.1, r.2))
            | '\x7d' :: rest3 => some ([(String.mk kcs, v)], rest3)
            | _ => none
        | _ => none
    | _ => none

end

/-- Embedding of Python `json.loads`: parse a complete JSON document,
requiring only whitespace after the value. -/
def json_loads (s : String) : Option Json :=
  match parse_jvalue (s.length + 1) s.toList with
  | some (v, rem) => if (skip_ws rem).isEmpty then some v else none
  | none => none

/-! ### Embedding of Python `int(...)` on strings and of `urllib.parse` -/

/-- All-digit check plus value: `int` accepts a non-empty digit run. -/
def py_int_digits (l : List Char) : Option Nat :=
  if l.isEmpty then none
  else if l.all (fun c => c.isDigit) then some (digits_val l) else none

/-- Embedding of Python `int(s)` for strings: strip whitespace, optional
sign, decimal digits; `none` models the `ValueError` raise. -/
def py_int (s : String) : Option Int :=
  let l := ((s.toList.dropWhile (fun c => c.isWhitespace)).reverse.dropWhile
      (fun c => c.isWhitespace)).reverse
  match l with
  | '-' :: t => (py_int_digits t).map (fun n => -(n : Int))
  | '+' :: t => (py_int_digits t).map (fun n => (n : Int))
  | t => (py_int_digits t).map (fun n => (n : Int))

/-- Split a character list on every occurrence of a separator character,
keeping empty segments (like Python `str.split(sep)`). -/
def split_on_char (c : Char) : List Char → List (List Char)
  | [] => [[]]
  | a :: t =>
    let r := split_on_char c t
    if a == c then [] :: r
    else
      match r with
      | [] => [[a]]
      | h :: t2 => (a :: h) :: t2

/-- Python `path.split('/')` as a list of strings. -/
def py_split_slash (s : String) : List String :=
  (split_on_char '/' s.toList).map String.mk

/-- `s.startswith(pre)`. -/
def str_starts_with (s pre : String) : Bool :=
  pre.toList.isPrefixOf s.toList

/-- `s.endswith(suf)`. -/
def str_ends_with (s suf : String) : Bool :=
  suf.toList.isSuffixOf s.toList

/-- `s.lstrip('/')`: drop every leading slash. -/
def lstrip_slash (s : String) : String :=
  String.mk (s.toList.dropWhile (fun c => c == '/'))

/-- `urlparse(url).path`: the characters before the first `?` or `#`. -/
def urlparse_path (url : String) : String :=
  String.mk (url.toList.takeWhile (fun c => c != '?' && c != '#'))

/-- `urlparse(url).query`: the characters after the first `?` of the
pre-fragment part. -/
def urlparse_query (url : String) : String :=
  let before := url.toList.takeWhile (fun c => c != '#')
  String.mk ((before.dropWhile (fun c => c != '?')).drop 1)

/-- Embedding of `urllib.parse.parse_qs` as an ordered association list
of individual name/value pairs: split on `&`, split each pair at the
first `=`, drop pairs with an empty value (`keep_blank_values` is false);
percent-decoding is not modelled.  Retrieval of `get(k, ...)[0]` below
takes the first pair for the key, matching the first element of the
grouped value list. -/
def parse_qs (qs : String) : List (String × String) :=
  (split_on_char '&' qs.toList).filterMap (fun part =>
    let name := part.takeWhile (fun c => c != '=')
    let rest := part.dropWhile (fun c => c != '=')
    match rest with
    | [] => none
    | _ :: value =>
      if value.isEmpty then none else some (String.mk name, String.mk value))

/-- `query_params.get(key, [..])[0]` when the key is present. -/
def qget (qp : List (String × String)) (key : String) : Option String :=
  (qp.find? (fun p => p.1 == key)).map (fun p => p.2)

/-- `int(query_params.get(key, [default])[0])`: the default is already an
int, so an absent key cannot fail; a present value goes through `int`,
whose failure (`Except.error` carrying the offending string) models the
uncaught `ValueError`. -/
def py_int_param (qp : List (String × String)) (key : String) (default : Int) :
    Except String Int :=
  match qget qp key with
  | none => Except.ok default
  | some s =>
    match py_int s with
    | some n => Except.ok n
    | none => Except.error s

/-! ### Data model: protobuf messages as used by `proxy_server.py` -/

/-- `backend_service_pb2.StartTaskRequest` (fields as constructed at
`proxy_server.py` lines 117-123). -/
structure StartTaskRequest where
  task_prompt : String
  max_steps : Int
  user_id : String
  browser_name : String
  browser_port : Int
  deriving DecidableEq

/-- `backend_service_pb2.StartTaskResponse` fields read at lines 130-132. -/
structure StartTaskResponse where
  success : Bool
  task_id : String
  message : String
  deriving DecidableEq

/-- `backend_service_pb2.GetTaskStatusRequest`. -/
structure GetTaskStatusRequest where
  task_id : String
  deriving DecidableEq

/-- `backend_service_pb2.GetTaskStatusResponse` fields read at lines 215-219. -/
structure GetTaskStatusResponse where
  success : Bool
  status : String
  message : String
  deriving DecidableEq

/-- A task record as read from the persistence service (fields read at
`proxy_server.py` lines 158-167). -/
structure Task where
  task_id : String
  task_prompt : String
  max_steps : Int
  status : String
  user_id : String
  created_at : Int
  updated_at : Int
  final_result : String
  deriving DecidableEq

/-- A task output record (fields read at lines 190-198). -/
structure TaskOutput where
  output_id : String
  task_id : String
  output_type : String
  step_data : String
  step_number : Int
  timestamp : Int
  deriving DecidableEq

/-- `database_service_pb2.ListTasksRequest` (constructed at lines 147-151). -/
structure ListTasksRequest where
  user_id : String
  limit : Int
  offset : Int
  deriving DecidableEq

/-- `database_service_pb2.ListTasksResponse`: the `tasks` field iterated
at line 157. -/
structure ListTasksResponse where
  tasks : List Task
  deriving DecidableEq

/-- `database_service_pb2.GetTaskHistoryRequest`. -/
structure GetTaskHistoryRequest where
  task_id : String
  deriving DecidableEq

/-- `database_service_pb2.GetTaskHistoryResponse`: `success` checked at
line 184, `outputs` iterated at line 190. -/
structure GetTaskHistoryResponse where
  success : Bool
  outputs : List TaskOutput
  deriving DecidableEq

/-- A raised `grpc.RpcError`, carrying the rendered `e.code()` and
`e.details()`. -/
structure GrpcError where
  code : String
  details : String
  deriving DecidableEq

/-- The two gRPC backends, as pure oracles: each RPC either returns a
response or raises `grpc.RpcError`. -/
structure Backend where
  startTask : StartTaskRequest → Except GrpcError StartTaskResponse
  getTaskStatus : GetTaskStatusRequest → Except GrpcError GetTaskStatusResponse
  listTasks : ListTasksRequest → Except GrpcError ListTasksResponse
  getTaskHistory : GetTaskHistoryRequest → Except GrpcError GetTaskHistoryResponse

/-- One RPC call issued by a handler (recorded so theorems can state
which RPCs a request did or did not cause). -/
inductive RpcCall where
  | startTask (r : StartTaskRequest) : RpcCall
  | getTaskStatus (r : GetTaskStatusRequest) : RpcCall
  | listTasks (r : ListTasksRequest) : RpcCall
  | getTaskHistory (r : GetTaskHistoryRequest) : RpcCall
  deriving DecidableEq

/-! ### HTTP responses -/

/-- The body of an HTTP response emitted by the gateway. -/
inductive Body where
  | jsonBody (j : Json) : Body
  | fileBody (content : String) : Body
  | errorPage (code : Nat) (message : String) : Body
  | empty : Body

/-- An HTTP response: status code, headers in emission order, body. -/
structure HttpResponse where
  code : Nat
  headers : List (String × String)
  body : Body

/-- `send_cors_headers` (lines 284-288). -/
def cors_headers : List (String × String) :=
  [("Access-Control-Allow-Origin", "*"),
   ("Access-Control-Allow-Methods", "GET, POST, OPTIONS"),
   ("Access-Control-Allow-Headers", "Content-Type")]

/-- `send_json_response` (lines 263-271): 200, Content-Type header, the
CORS headers, then the serialised payload.  The Content-Length header (a
function of the serialised byte count only) is not modelled; no stated
property depends on it. -/
def send_json_response (data : Json) : HttpResponse :=
  { code := 200,
    headers := ("Content-Type", "application/json") :: cors_headers,
    body := Body.jsonBody data }

/-- `send_error_response` (lines 273-282): the JSON error envelope
`{error: message}` with Content-Type and CORS headers. -/
def send_error_response (code : Nat) (message : String) : HttpResponse :=
  { code := code,
    headers := ("Content-Type", "application/json") :: cors_headers,
    body := Body.jsonBody (Json.obj [("error", Json.str message)]) }

/-- `BaseHTTPRequestHandler.send_error`: the framework error page.  It
sends its own Content-Type and Connection headers and, notably, no CORS
headers (the handler's `send_cors_headers` is not invoked on this path). -/
def send_error (code : Nat) (message : String) : HttpResponse :=
  { code := code,
    headers := [("Content-Type", "text/html;charset=utf-8"), ("Connection", "close")],
    body := Body.errorPage code message }

/-- `do_OPTIONS` (lines 52-56): 200 with CORS headers and empty body. -/
def do_OPTIONS : HttpResponse :=
  { code := 200, headers := cors_headers, body := Body.empty }

/-! ### Static file serving -/

/-- The file system visible to the process, relative to its working
directory: `os.path.exists`, `os.path.isfile`, and file contents. -/
structure FileSystem where
  path_exists : String → Bool
  path_isFile : String → Bool
  read : String → String

/-- The filepath resolution at `serve_static_file` lines 231-234. -/
def resolve_static (filename : String) : String :=
  if filename == "index.html" || filename == "/" then "index.html" else filename

/-- `serve_static_file` (lines 228-258): resolve the name, 404 via the
framework error page when absent, otherwise 200 with an extension-derived
Content-Type, the CORS headers and the file content.  Note there is no
check that the path stays inside the serving root. -/
def serve_static_file (fs : FileSystem) (filename : String) : HttpResponse :=
  let filepath := resolve_static filename
  if !(fs.path_exists filepath) then send_error 404 "File not found"
  else
    let content := fs.read filepath
    let content_type :=
      if str_ends_with filename ".html" then "text/html"
      else if str_ends_with filename ".css" then "text/css"
      else if str_ends_with filename ".js" then "application/javascript"
      else "application/octet-stream"
    { code := 200,
      headers := ("Content-Type", content_type) :: cors_headers,
      body := Body.fileBody content }

/-! ### Request translation and the POST handler -/

def as_str : Json → Option String
  | Json.str s => some s
  | _ => none

def as_int : Json → Option Int
  | Json.num n => some n
  | _ => none

/-- The `StartTaskRequest` construction at lines 117-123:
`data.get(field, default)` for each field, then the protobuf constructor,
which type-checks each field (`none` models the raised `TypeError`). -/
def translate_start_task (fields : List (String × Json)) : Option StartTaskRequest :=
  match as_str ((get_field fields "task_prompt").getD (Json.str "")) with
  | none => none
  | some task_prompt =>
    match as_int ((get_field fields "max_steps").getD (Json.num 15)) with
    | none => none
    | some max_steps =>
      match as_str ((get_field fields "user_id").getD (Json.str "default")) with
      | none => none
      | some user_id =>
        match as_str ((get_field fields "browser_name").getD (Json.str "chrome")) with
        | none => none
        | some browser_name =>
          match as_int ((get_field fields "browser_port").getD (Json.num 9999)) with
          | none => none
          | some browser_port =>
            some { task_prompt := task_prompt, max_steps := max_steps, user_id := user_id,
                   browser_name := browser_name, browser_port := browser_port }

/-- `handle_start_task` (lines 106-140).  The whole body sits in a
`try/except` that turns any raised exception into a 500 JSON error
envelope; the distinct failure strings keep the cases apart.  The second
component records the RPC calls issued. -/
def handle_start_task (be : Backend) (body : String) : HttpResponse × List RpcCall :=
  match json_loads body with
  | none => (send_error_response 500 "Error: request body is not valid JSON", [])
  | some (Json.obj fields) =>
    match translate_start_task fields with
    | none => (send_error_response 500 "Error: bad argument type for StartTaskRequest", [])
    | some request =>
      match be.startTask request with
      | Except.error e =>
        (send_error_response 500 ("gRPC Error: " ++ e.code ++ " - " ++ e.details),
         [RpcCall.startTask request])
      | Except.ok response =>
        (send_json_response (Json.obj
           [("success", Json.bool response.success),
            ("task_id", Json.str response.task_id),
            ("message", Json.str response.message)]),
         [RpcCall.startTask request])
  | some _ => (send_error_response 500 "Error: request body is not a JSON object", [])

/-! ### Response translation and the GET API handlers -/

/-- The per-task JSON object built at lines 158-167.  `final_result` is
embedded verbatim as a string — the handler never parses it. -/
def task_to_json (t : Task) : Json :=
  Json.obj
    [("task_id", Json.str t.task_id),
     ("task_prompt", Json.str t.task_prompt),
     ("max_steps", Json.num t.max_steps),
     ("status", Json.str t.status),
     ("user_id", Json.str t.user_id),
     ("created_at", Json.num t.created_at),
     ("updated_at", Json.num t.updated_at),
     ("final_result", Json.str t.final_result)]

/-- The per-output JSON object built at lines 191-198 (`step_data` is
likewise embedded verbatim). -/
def output_to_json (o : TaskOutput) : Json :=
  Json.obj
    [("output_id", Json.str o.output_id),
     ("task_id", Json.str o.task_id),
     ("output_type", Json.str o.output_type),
     ("step_data", Json.str o.step_data),
     ("step_number", Json.num o.step_number),
     ("timestamp", Json.num o.timestamp)]

/-- `list_tasks` (lines 142-174). -/
def list_tasks (be : Backend) (limit offset : Int) (user_id : String) :
    HttpResponse × List RpcCall :=
  let request : ListTasksRequest :=
    { user_id := if user_id != "" then user_id else "", limit := limit, offset := offset }
  match be.listTasks request with
  | Except.error e =>
    (send_error_response 500 ("gRPC Error: " ++ e.code ++ " - " ++ e.details),
     [RpcCall.listTasks request])
  | Except.ok response =>
    (send_json_response (Json.arr (response.tasks.map task_to_json)),
     [RpcCall.listTasks request])

/-- `get_task_history` (lines 176-205): the one handler that checks the
response's `success` flag before translating the payload. -/
def get_task_history (be : Backend) (task_id : String) : HttpResponse × List RpcCall :=
  let request : GetTaskHistoryRequest := { task_id := task_id }
  match be.getTaskHistory request with
  | Except.error e =>
    (send_error_response 500 ("gRPC Error: " ++ e.code ++ " - " ++ e.details),
     [RpcCall.getTaskHistory request])
  | Except.ok response =>
    if !response.success then
      (send_error_response 404 "Task not found", [RpcCall.getTaskHistory request])
    else
      (send_json_response (Json.arr (response.outputs.map output_to_json)),
       [RpcCall.getTaskHistory request])

/-- `get_task_status` (lines 207-226): translates the payload without
inspecting `success` — `status` is surfaced unconditionally. -/
def get_task_status (be : Backend) (task_id : String) : HttpResponse × List RpcCall :=
  let request : GetTaskStatusRequest := { task_id := task_id }
  match be.getTaskStatus request with
  | Except.error e =>
    (send_error_response 500 ("gRPC Error: " ++ e.code ++ " - " ++ e.details),
     [RpcCall.getTaskStatus request])
  | Except.ok response =>
    (send_json_response (Json.obj
       [("success", Json.bool response.success),
        ("status", Json.str response.status),
        ("message", Json.str response.message)]),
     [RpcCall.getTaskStatus request])

/-- Outcome of running a handler: either an HTTP response was emitted,
or a Python exception escaped the handler uncaught (no response body of
the gateway's making is produced on that path). -/
inductive Outcome where
  | ok (r : HttpResponse) : Outcome
  | uncaught (msg : String) : Outcome

/-- `handle_api_get` (lines 87-104).  The `int(...)` conversions for
`limit` and `offset` happen outside every `try` block, so a conversion
failure escapes the handler uncaught. -/
def handle_api_get (be : Backend) (path : String) (query_params : List (String × String)) :
    Outcome × List RpcCall :=
  if path == "/tasks" then
    match py_int_param query_params "limit" 50 with
    | Except.error s => (Outcome.uncaught ("ValueError: invalid literal for int: " ++ s), [])
    | Except.ok limit =>
      match py_int_param query_params "offset" 0 with
      | Except.error s => (Outcome.uncaught ("ValueError: invalid literal for int: " ++ s), [])
      | Except.ok offset =>
        let user_id := (qget query_params "user_id").getD ""
        let r := list_tasks be limit offset user_id
        (Outcome.ok r.1, r.2)
  else if str_starts_with path "/tasks/" && str_ends_with path "/history" then
    let task_id := (py_split_slash path).getD 2 ""
    let r := get_task_history be task_id
    (Outcome.ok r.1, r.2)
  else if str_starts_with path "/tasks/" && str_ends_with path "/status" then
    let task_id := (py_split_slash path).getD 2 ""
    let r := get_task_status be task_id
    (Outcome.ok r.1, r.2)
  else
    (Outcome.ok (send_error 404 "Not Found"), [])

/-- The body of `do_GET` (lines 58-75) after `urlparse`: index routes,
then the existing-file check, then the API handlers, else the framework
404. -/
def do_GET_parsed (fs : FileSystem) (be : Backend) (path : String)
    (query_params : List (String × String)) : Outcome × List RpcCall :=
  if path == "/" || path == "/index.html" then
    (Outcome.ok (serve_static_file fs "index.html"), [])
  else if str_starts_with path "/" then
    let file_path := lstrip_slash path
    if fs.path_exists file_path && fs.path_isFile file_path then
      (Outcome.ok (serve_static_file fs file_path), [])
    else
      handle_api_get be path query_params
  else
    (Outcome.ok (send_error 404 "Not Found"), [])

/-- `do_GET` (lines 58-75) on the raw request target. -/
def do_GET (fs : FileSystem) (be : Backend) (url : String) : Outcome × List RpcCall :=
  do_GET_parsed fs be (urlparse_path url) (parse_qs (urlparse_query url))

/-- `do_POST` (lines 77-85). -/
def do_POST (be : Backend) (url : String) (body : String) : HttpResponse × List RpcCall :=
  let path := urlparse_path url
  if path == "/tasks/start" then handle_start_task be body
  else (send_error 404 "Not Found", [])

/-! ### Channel manager (lines 31-46) -/

/-- The module-level channel cache (`_backend_channel`,
`_database_channel`); `next_channel` numbers the handles that
`grpc.insecure_channel` would construct, so that distinct constructions
yield distinct handles. -/
structure ChannelState where
  backend_channel : Option Nat
  database_channel : Option Nat
  next_channel : Nat
  deriving DecidableEq

/-- `grpc.insecure_channel(...)`: constructs a fresh channel handle. -/
def insecure_channel (s : ChannelState) : Nat × ChannelState :=
  (s.next_channel, { s with next_channel := s.next_channel + 1 })

/-- A `BackendServiceStub`: a fresh stub object wrapping a channel. -/
structure BackendServiceStub where
  channel : Nat
  deriving DecidableEq

/-- A `DatabaseServiceStub`. -/
structure DatabaseServiceStub where
  channel : Nat
  deriving DecidableEq

/-- `get_backend_stub` (lines 35-40): construct the channel only when the
cache is empty, then wrap the cached channel in a (new) stub. -/
def get_backend_stub (s : ChannelState) : BackendServiceStub × ChannelState :=
  match s.backend_channel with
  | some ch => ({ channel := ch }, s)
  | none =>
    let r := insecure_channel s
    ({ channel := r.1 }, { r.2 with backend_channel := some r.1 })

/-- `get_database_stub` (lines 42-46). -/
def get_database_stub (s : ChannelState) : DatabaseServiceStub × ChannelState :=
  match s.database_channel with
  | some ch => ({ channel := ch }, s)
  | none =>
    let r := insecure_channel s
    ({ channel := r.1 }, { r.2 with database_channel := some r.1 })

/-! ### Concrete fixtures used by counterexamples and witnesses -/

/-- A backend whose every RPC succeeds with fixed payloads. -/
def be0 : Backend :=
  { startTask := fun _ => Except.ok { success := true, task_id := "task-1", message := "started" },
    getTaskStatus := fun _ => Except.ok { success := true, status := "running", message := "ok" },
    listTasks := fun _ => Except.ok { tasks := [] },
    getTaskHistory := fun _ => Except.ok { success := true, outputs := [] } }

/-- A backend whose `GetTaskStatus` reports `success = false` together
with a non-empty payload. -/
def be_status_failure : Backend :=
  { be0 with getTaskStatus :=
      fun _ => Except.ok { success := false, status := "running", message := "boom" } }

/-- A backend whose `GetTaskHistory` reports `success = false`. -/
def be_history_failure : Backend :=
  { be0 with getTaskHistory :=
      fun _ => Except.ok { success := false, outputs := [] } }

/-- An empty file system. -/
def fs0 : FileSystem :=
  { path_exists := fun _ => false, path_isFile := fun _ => false, read := fun _ => "" }

/-- A file system holding exactly one regular file named `tasks` in the
serving root. -/
def fs_tasks : FileSystem :=
  { path_exists := fun p => p == "tasks",
    path_isFile := fun p => p == "tasks",
    read := fun p => if p == "tasks" then "shadow" else "" }

/-- A file system on which the relative path `../etc/passwd` — outside
the serving root — names an existing regular file. -/
def fs_escape : FileSystem :=
  { path_exists := fun p => p == "../etc/passwd",
    path_isFile := fun p => p == "../etc/passwd",
    read := fun p => if p == "../etc/passwd" then "root:secret" else "" }

/-- A task whose `final_result` blob is syntactically valid JSON. -/
def t0 : Task :=
  { task_id := "t1", task_prompt := "collect", max_steps := 5, status := "completed",
    user_id := "u1", created_at := 100, updated_at := 200,
    final_result := "\x7b\"a\":1\x7d" }

/-- The channel cache at process start: both caches empty. -/
def s0 : ChannelState :=
  { backend_channel := none, database_channel := none, next_channel := 0 }

/-- A backend whose `ListTasks` returns exactly the task `t0`. -/
def be_list_t0 : Backend :=
  { be0 with listTasks := fun _ => Except.ok { tasks := [t0] } }

/-- A response carries the three permissive CORS headers. -/
def has_cors (r : HttpResponse) : Prop :=
  ("Access-Control-Allow-Origin", "*") ∈ r.headers
  ∧ ("Access-Control-Allow-Methods", "GET, POST, OPTIONS") ∈ r.headers
  ∧ ("Access-Control-Allow-Headers", "Content-Type") ∈ r.headers

/-! ## Helper lemmas -/

/-- `takeWhile` over an appended list stops inside the first part when
that part contains an element failing the predicate. -/
theorem takeWhile_append_stop {p : Char → Bool} (l1 l2 : List Char)
    (h : (l1.takeWhile p).length < l1.length) :
    (l1 ++ l2).takeWhile p = l1.takeWhile p := by
  induction l1 with
  | nil => simp at h
  | cons a t ih =>
    by_cases hp : p a
    · simp only [List.cons_append, List.takeWhile_cons_of_pos hp] at h ⊢
      simp only [List.length_cons, Nat.add_lt_add_iff_right] at h
      rw [ih h]
    · simp [List.takeWhile_cons_of_neg hp]

/-- A request target `/does-not-exist?q` parses to the path
`/does-not-exist` for every query string `q`. -/
theorem urlparse_path_does_not_exist (q : String) :
    urlparse_path ("/does-not-exist?" ++ q) = "/does-not-exist" := by
  unfold urlparse_path
  rw [show ("/does-not-exist?" ++ q).toList = "/does-not-exist?".toList ++ q.toList from
    String.data_append _ _]
  rw [takeWhile_append_stop _ _ (by decide)]
  rfl

/-- GET dispatch falls through to the framework 404 when the path is no
index route, no API route, and names no existing regular file. -/
theorem do_GET_parsed_unmatched (fs : FileSystem) (be : Backend) (path : String)
    (qp : List (String × String))
    (hidx : (path == "/" || path == "/index.html") = false)
    (hslash : str_starts_with path "/" = true)
    (hfile : (fs.path_exists (lstrip_slash path) && fs.path_isFile (lstrip_slash path)) = false)
    (htasks : (path == "/tasks") = false)
    (hhist : (str_starts_with path "/tasks/" && str_ends_with path "/history") = false)
    (hstat : (str_starts_with path "/tasks/" && str_ends_with path "/status") = false) :
    do_GET_parsed fs be path qp = (Outcome.ok (send_error 404 "Not Found"), []) := by
  simp [do_GET_parsed, handle_api_get, hidx, hslash, hfile, htasks, hhist, hstat]

/-- When the body parses to an object whose translation succeeds,
`handle_start_task` issues exactly the translated `StartTask` RPC. -/
theorem handle_start_task_calls (be : Backend) (body : String)
    (fields : List (String × Json)) (req : StartTaskRequest)
    (hparse : json_loads body = some (Json.obj fields))
    (htr : translate_start_task fields = some req) :
    (handle_start_task be body).2 = [RpcCall.startTask req] := by
  simp only [handle_start_task, hparse, htr]
  cases h : be.startTask req <;> simp

/-- Decomposition of a successful `StartTaskRequest` translation into
its per-field lookups. -/
theorem translate_fields (fields : List (String × Json)) (req : StartTaskRequest)
    (htr : translate_start_task fields = some req) :
    as_str ((get_field fields "task_prompt").getD (Json.str "")) = some req.task_prompt
    ∧ as_int ((get_field fields "max_steps").getD (Json.num 15)) = some req.max_steps
    ∧ as_str ((get_field fields "user_id").getD (Json.str "default")) = some req.user_id
    ∧ as_str ((get_field fields "browser_name").getD (Json.str "chrome")) = some req.browser_name
    ∧ as_int ((get_field fields "browser_port").getD (Json.num 9999)) = some req.browser_port := by
  unfold translate_start_task at htr
  repeat' split at htr
  all_goals try exact Option.noConfusion htr
  injection htr with h
  subst h
  exact ⟨by assumption, by assumption, by assumption, by assumption, by assumption⟩

/-! ## Claims -/

/-- C1, counterexample: a POST `/tasks/start` body with no `task_prompt`
(the empty JSON object) does reach the backend — `handle_start_task`
issues the StartTask RPC with `task_prompt = ""` and returns the
backend's success envelope, not a validation error, refuting the claim
that the RPC is never issued for such a request. -/
theorem startTask_rpc_issued_for_missing_prompt :
    (handle_start_task be0 "\x7b\x7d").2 =
      [RpcCall.startTask { task_prompt := "", max_steps := 15, user_id := "default",
                           browser_name := "chrome", browser_port := 9999 }]
    ∧ (handle_start_task be0 "\x7b\x7d").2 ≠ []
    ∧ (handle_start_task be0 "\x7b\x7d").1 = send_json_response (Json.obj
        [("success", Json.bool true), ("task_id", Json.str "task-1"),
         ("message", Json.str "started")]) :=
  ⟨rfl, by decide, rfl⟩

/-- C1, amended: the gateway performs no `task_prompt` validation — a
POST `/tasks/start` body whose `task_prompt` is missing or the empty
string is defaulted to `""` and the StartTask RPC is issued with that
empty prompt; no synchronous validation error is produced. -/
theorem startTask_missing_prompt_no_validation (be : Backend) (body : String)
    (fields : List (String × Json)) (req : StartTaskRequest)
    (hparse : json_loads body = some (Json.obj fields))
    (hprompt : get_field fields "task_prompt" = none
      ∨ get_field fields "task_prompt" = some (Json.str ""))
    (htr : translate_start_task fields = some req) :
    req.task_prompt = "" ∧ (do_POST be "/tasks/start" body).2 = [RpcCall.startTask req] := by
  constructor
  · have h := (translate_fields fields req htr).1
    rcases hprompt with hp | hp <;> rw [hp] at h <;> simp [as_str] at h <;> exact h.symm
  · have hpost : do_POST be "/tasks/start" body = handle_start_task be body := rfl
    rw [hpost]
    exact handle_start_task_calls be body fields req hparse htr

/-- C1, witness: the amended theorem applied to the empty JSON body. -/
theorem startTask_missing_prompt_no_validation_witness :
    ({ task_prompt := "", max_steps := 15, user_id := "default",
       browser_name := "chrome", browser_port := 9999 : StartTaskRequest }).task_prompt = ""
    ∧ (do_POST be0 "/tasks/start" "\x7b\x7d").2 =
      [RpcCall.startTask { task_prompt := "", max_steps := 15, user_id := "default",
                           browser_name := "chrome", browser_port := 9999 }] :=
  startTask_missing_prompt_no_validation be0 "\x7b\x7d" [] _ rfl (Or.inl rfl) rfl

/-- C2, counterexample: the task `t0` carries the syntactically valid
JSON blob as its `final_result`, yet `list_tasks` embeds it as the raw
JSON string, not as the parsed nested object, refuting the claim that
valid blobs are embedded as structured JSON values. -/
theorem final_result_embedded_raw_despite_valid_json :
    json_loads t0.final_result = some (Json.obj [("a", Json.num 1)])
    ∧ json_get_field (task_to_json t0) "final_result" = some (Json.str "\x7b\"a\":1\x7d")
    ∧ json_get_field (task_to_json t0) "final_result" ≠ some (Json.obj [("a", Json.num 1)])
    ∧ (list_tasks be_list_t0 50 0 "").1 = send_json_response (Json.arr [task_to_json t0]) := by
  refine ⟨rfl, rfl, ?_, rfl⟩
  intro h
  simp [json_get_field, task_to_json, get_field, t0] at h

/-- C2, amended: every task's `final_result` is embedded verbatim as a
JSON string in the `/tasks` response — the gateway never parses the
blob, even when it is syntactically valid JSON. -/
theorem final_result_always_embedded_as_string (t : Task) :
    json_get_field (task_to_json t) "final_result" = some (Json.str t.final_result) := rfl

/-- C3, counterexample: on a GetTaskStatus response with
`success = false`, the gateway still surfaces the `status` payload field
(here the non-null string `"running"`) alongside `message`, refuting the
claim that on failure only `message` is surfaced. -/
theorem get_task_status_surfaces_payload_on_failure :
    (get_task_status be_status_failure "t1").1 = send_json_response (Json.obj
      [("success", Json.bool false), ("status", Json.str "running"),
       ("message", Json.str "boom")])
    ∧ json_get_field (Json.obj
        [("success", Json.bool false), ("status", Json.str "running"),
         ("message", Json.str "boom")]) "status" = some (Json.str "running")
    ∧ Json.str "running" ≠ Json.null :=
  ⟨rfl, rfl, fun h => Json.noConfusion h⟩

/-- C3, amended: only the GetTaskHistory handler checks the backend's
`success` flag (a false flag yields the 404 "Task not found" error
envelope with no payload); the GetTaskStatus handler translates and
surfaces the full payload — including `status` — regardless of the
flag's value. -/
theorem success_flag_checked_only_in_history (be : Backend) (task_id : String) :
    (∀ resp, be.getTaskHistory { task_id := task_id } = Except.ok resp → resp.success = false →
      (get_task_history be task_id).1 = send_error_response 404 "Task not found")
    ∧ (∀ resp, be.getTaskStatus { task_id := task_id } = Except.ok resp →
      (get_task_status be task_id).1 = send_json_response (Json.obj
        [("success", Json.bool resp.success), ("status", Json.str resp.status),
         ("message", Json.str resp.message)])) := by
  constructor
  · intro resp h hs; simp [get_task_history, h, hs]
  · intro resp h; simp [get_task_status, h]

/-- C3, witness: the amended theorem applied to a backend whose history
RPC fails and whose status RPC succeeds. -/
theorem success_flag_checked_only_in_history_witness :
    (get_task_history be_history_failure "t1").1 = send_error_response 404 "Task not found"
    ∧ (get_task_status be_history_failure "t1").1 = send_json_response (Json.obj
        [("success", Json.bool true), ("status", Json.str "running"),
         ("message", Json.str "ok")]) :=
  ⟨(success_flag_checked_only_in_history be_history_failure "t1").1
      { success := false, outputs := [] } rfl rfl,
   (success_flag_checked_only_in_history be_history_failure "t1").2
      { success := true, status := "running", message := "ok" } rfl⟩

/-- C4, counterexample: the 404 emitted for an unmatched GET goes
through the framework's `send_error`, whose response carries none of the
three CORS headers, refuting the claim that every response does. -/
theorem not_found_response_lacks_cors :
    do_GET fs0 be0 "/nope" = (Outcome.ok (send_error 404 "Not Found"), [])
    ∧ ¬ has_cors (send_error 404 "Not Found") := by
  refine ⟨rfl, ?_⟩
  intro h
  simp [has_cors, send_error] at h

/-- C4, amended: the JSON success and error envelopes, the OPTIONS
preflight response, and successful static-file responses all carry the
three permissive CORS headers; responses emitted through the framework's
`send_error` (unmatched routes, missing static files) do not. -/
theorem cors_on_json_and_error_envelopes :
    (∀ d, has_cors (send_json_response d))
    ∧ (∀ c m, has_cors (send_error_response c m))
    ∧ has_cors do_OPTIONS
    ∧ (∀ fs f, fs.path_exists (resolve_static f) = true → has_cors (serve_static_file fs f))
    ∧ ¬ has_cors (send_error 404 "Not Found") := by
  refine ⟨?_, ?_, ?_, ?_, ?_⟩
  · intro d; simp [has_cors, send_json_response, cors_headers]
  · intro c m; simp [has_cors, send_error_response, cors_headers]
  · simp [has_cors, do_OPTIONS, cors_headers]
  · intro fs f h; simp [has_cors, serve_static_file, h, cors_headers]
  · intro h; simp [has_cors, send_error] at h

/-- C4, witness: the amended theorem applied to a JSON payload and to an
existing static file. -/
theorem cors_on_json_and_error_envelopes_witness :
    has_cors (send_json_response Json.null) ∧ has_cors (serve_static_file fs_tasks "tasks") :=
  ⟨cors_on_json_and_error_envelopes.1 Json.null,
   cors_on_json_and_error_envelopes.2.2.2.1 fs_tasks "tasks" rfl⟩

/-- C5: the static handler performs no containment check — the request
target `/../etc/passwd` resolves to the relative path `../etc/passwd`,
which escapes the serving root, and the gateway serves that file's
content with a 200 instead of rejecting the request. -/
theorem static_handler_serves_path_outside_root :
    do_GET fs_escape be0 "/../etc/passwd" =
      (Outcome.ok (serve_static_file fs_escape "../etc/passwd"), [])
    ∧ (serve_static_file fs_escape "../etc/passwd").code = 200
    ∧ (serve_static_file fs_escape "../etc/passwd").body = Body.fileBody "root:secret" :=
  ⟨rfl, rfl, rfl⟩

/-- C6: for each backend name the channel is constructed on the first
acquisition and cached — a second sequential acquisition returns a stub
over the identical channel handle and leaves the cache untouched (no new
construction), and a first acquisition on an empty cache stores exactly
the handle it hands out. -/
theorem channel_cached_and_reused (s : ChannelState) :
    ((get_backend_stub (get_backend_stub s).2).1.channel = (get_backend_stub s).1.channel
      ∧ (get_backend_stub (get_backend_stub s).2).2 = (get_backend_stub s).2)
    ∧ ((get_database_stub (get_database_stub s).2).1.channel = (get_database_stub s).1.channel
      ∧ (get_database_stub (get_database_stub s).2).2 = (get_database_stub s).2)
    ∧ (s.backend_channel = none →
        (get_backend_stub s).2.backend_channel = some (get_backend_stub s).1.channel
        ∧ (get_backend_stub s).1.channel = s.next_channel)
    ∧ (s.database_channel = none →
        (get_database_stub s).2.database_channel = some (get_database_stub s).1.channel
        ∧ (get_database_stub s).1.channel = s.next_channel) := by
  refine ⟨?_, ?_, ?_, ?_⟩
  · cases hb : s.backend_channel <;> simp [get_backend_stub, insecure_channel, hb]
  · cases hd : s.database_channel <;> simp [get_database_stub, insecure_channel, hd]
  · intro hb; simp [get_backend_stub, insecure_channel, hb]
  · intro hd; simp [get_database_stub, insecure_channel, hd]

/-- C6, witness: the theorem applied to the start-of-process cache. -/
theorem channel_cached_and_reused_witness :
    ((get_backend_stub s0).2.backend_channel = some (get_backend_stub s0).1.channel
      ∧ (get_backend_stub s0).1.channel = s0.next_channel)
    ∧ ((get_database_stub s0).2.database_channel = some (get_database_stub s0).1.channel
      ∧ (get_database_stub s0).1.channel = s0.next_channel)
    ∧ (get_backend_stub (get_backend_stub s0).2).1.channel = (get_backend_stub s0).1.channel :=
  ⟨(channel_cached_and_reused s0).2.2.1 rfl, (channel_cached_and_reused s0).2.2.2 rfl,
   (channel_cached_and_reused s0).1.1⟩

/-- C7: whenever a POST `/tasks/start` body parses to an object whose
translation succeeds, the issued StartTask request carries
`max_steps = 15` when `max_steps` is omitted, and likewise `user_id`,
`browser_name` and `browser_port` default to "default", "chrome" and
9999 when omitted. -/
theorem start_task_defaults (be : Backend) (body : String)
    (fields : List (String × Json)) (req : StartTaskRequest)
    (hparse : json_loads body = some (Json.obj fields))
    (htr : translate_start_task fields = some req) :
    (do_POST be "/tasks/start" body).2 = [RpcCall.startTask req]
    ∧ (get_field fields "max_steps" = none → req.max_steps = 15)
    ∧ (get_field fields "user_id" = none → req.user_id = "default")
    ∧ (get_field fields "browser_name" = none → req.browser_name = "chrome")
    ∧ (get_field fields "browser_port" = none → req.browser_port = 9999) := by
  obtain ⟨htp, hms, huid, hbn, hbp⟩ := translate_fields fields req htr
  refine ⟨?_, ?_, ?_, ?_, ?_⟩
  · have hpost : do_POST be "/tasks/start" body = handle_start_task be body := rfl
    rw [hpost]
    exact handle_start_task_calls be body fields req hparse htr
  · intro h; rw [h] at hms; simp [as_int] at hms; exact hms.symm
  · intro h; rw [h] at huid; simp [as_str] at huid; exact huid.symm
  · intro h; rw [h] at hbn; simp [as_str] at hbn; exact hbn.symm
  · intro h; rw [h] at hbp; simp [as_int] at hbp; exact hbp.symm

/-- C7, witness: the theorem applied to a body containing only a
`task_prompt`, with every hypothesis discharged by computation. -/
theorem start_task_defaults_witness :
    (do_POST be0 "/tasks/start" "\x7b\"task_prompt\":\"go\"\x7d").2 =
      [RpcCall.startTask { task_prompt := "go", max_steps := 15, user_id := "default",
                           browser_name := "chrome", browser_port := 9999 }]
    ∧ ({ task_prompt := "go", max_steps := 15, user_id := "default",
         browser_name := "chrome", browser_port := 9999 : StartTaskRequest }).max_steps = 15
    ∧ ({ task_prompt := "go", max_steps := 15, user_id := "default",
         browser_name := "chrome", browser_port := 9999 : StartTaskRequest }).user_id = "default"
    ∧ ({ task_prompt := "go", max_steps := 15, user_id := "default",
         browser_name := "chrome", browser_port := 9999 : StartTaskRequest }).browser_name = "chrome"
    ∧ ({ task_prompt := "go", max_steps := 15, user_id := "default",
         browser_name := "chrome", browser_port := 9999 : StartTaskRequest }).browser_port = 9999 :=
  ⟨(start_task_defaults be0 "\x7b\"task_prompt\":\"go\"\x7d"
      [("task_prompt", Json.str "go")] _ rfl rfl).1,
   (start_task_defaults be0 "\x7b\"task_prompt\":\"go\"\x7d"
      [("task_prompt", Json.str "go")] _ rfl rfl).2.1 rfl,
   (start_task_defaults be0 "\x7b\"task_prompt\":\"go\"\x7d"
      [("task_prompt", Json.str "go")] _ rfl rfl).2.2.1 rfl,
   (start_task_defaults be0 "\x7b\"task_prompt\":\"go\"\x7d"
      [("task_prompt", Json.str "go")] _ rfl rfl).2.2.2.1 rfl,
   (start_task_defaults be0 "\x7b\"task_prompt\":\"go\"\x7d"
      [("task_prompt", Json.str "go")] _ rfl rfl).2.2.2.2 rfl⟩

/-- C8: a GET whose path matches neither the index routes nor any API
route and names no existing regular file yields the 404 "Not Found"
response; in particular `/does-not-exist` yields 404 for every attached
query string. -/
theorem unmatched_get_returns_404 :
    (∀ (fs : FileSystem) (be : Backend) (path : String) (qp : List (String × String)),
      (path == "/" || path == "/index.html") = false →
      (path == "/tasks") = false →
      (str_starts_with path "/tasks/" && str_ends_with path "/history") = false →
      (str_starts_with path "/tasks/" && str_ends_with path "/status") = false →
      str_starts_with path "/" = true →
      (fs.path_exists (lstrip_slash path) && fs.path_isFile (lstrip_slash path)) = false →
      do_GET_parsed fs be path qp = (Outcome.ok (send_error 404 "Not Found"), []))
    ∧ (∀ (fs : FileSystem) (be : Backend) (q : String),
      (fs.path_exists "does-not-exist" && fs.path_isFile "does-not-exist") = false →
      do_GET fs be ("/does-not-exist?" ++ q) = (Outcome.ok (send_error 404 "Not Found"), [])) := by
  constructor
  · intro fs be path qp h1 h2 h3 h4 h5 h6
    exact do_GET_parsed_unmatched fs be path qp h1 h5 h6 h2 h3 h4
  · intro fs be q hfile
    rw [do_GET, urlparse_path_does_not_exist q]
    exact do_GET_parsed_unmatched fs be _ _ (by decide) (by decide) hfile
      (by decide) (by decide) (by decide)

/-- C8, witness: the theorem applied to the empty file system, once on a
parsed path and once on a raw target carrying a query string. -/
theorem unmatched_get_returns_404_witness :
    do_GET_parsed fs0 be0 "/nowhere" [("a", "b")] = (Outcome.ok (send_error 404 "Not Found"), [])
    ∧ do_GET fs0 be0 ("/does-not-exist?" ++ "x=1&y=2") =
      (Outcome.ok (send_error 404 "Not Found"), []) :=
  ⟨unmatched_get_returns_404.1 fs0 be0 "/nowhere" [("a", "b")] (by decide) (by decide)
      (by decide) (by decide) (by decide) (by decide),
   unmatched_get_returns_404.2 fs0 be0 "x=1&y=2" (by decide)⟩

/-- C9, counterexample: GET `/tasks?limit=abc` raises an uncaught
ValueError inside the handler — no JSON error envelope is produced and
no RPC is issued, refuting the claim that every handler boundary
converts internal failures into an error envelope. -/
theorem malformed_limit_uncaught_value_error :
    do_GET fs0 be0 "/tasks?limit=abc" =
      (Outcome.uncaught "ValueError: invalid literal for int: abc", []) := rfl

/-- C9, amended: the `int(...)` conversions of `limit` and `offset` sit
outside every try block, so a malformed `limit` on GET `/tasks` escapes
the handler as an uncaught ValueError before any RPC is issued; failures
raised inside the RPC handlers (for example a gRPC error in
GetTaskStatus) are converted to the 500 JSON error envelope. -/
theorem limit_parse_failure_escapes_handler (be : Backend)
    (qp : List (String × String)) (s : String)
    (hq : qget qp "limit" = some s) (hint : py_int s = none) :
    handle_api_get be "/tasks" qp =
      (Outcome.uncaught ("ValueError: invalid literal for int: " ++ s), [])
    ∧ (∀ task_id e, be.getTaskStatus { task_id := task_id } = Except.error e →
        (get_task_status be task_id).1 =
          send_error_response 500 ("gRPC Error: " ++ e.code ++ " - " ++ e.details)) := by
  constructor
  · simp [handle_api_get, py_int_param, hq, hint]
  · intro task_id e he; simp [get_task_status, he]

/-- C9, witness: the amended theorem applied to the query `limit=abc`. -/
theorem limit_parse_failure_escapes_handler_witness :
    handle_api_get be0 "/tasks" [("limit", "abc")] =
      (Outcome.uncaught ("ValueError: invalid literal for int: " ++ "abc"), []) :=
  (limit_parse_failure_escapes_handler be0 [("limit", "abc")] "abc" rfl rfl).1

/-- C10: the existing-file check precedes API routing — a GET whose path
(stripped of leading slashes) names an existing regular file is served
statically with no RPC issued, even when the path coincides with an API
route such as `/tasks`. -/
theorem existing_file_shadows_api_route (fs : FileSystem) (be : Backend) (path : String)
    (qp : List (String × String))
    (hidx : (path == "/" || path == "/index.html") = false)
    (hslash : str_starts_with path "/" = true)
    (hfile : (fs.path_exists (lstrip_slash path) && fs.path_isFile (lstrip_slash path)) = true) :
    do_GET_parsed fs be path qp = (Outcome.ok (serve_static_file fs (lstrip_slash path)), []) := by
  simp [do_GET_parsed, hidx, hslash, hfile]

/-- C10, witness: a file named `tasks` in the serving root shadows the
`/tasks` list-tasks route. -/
theorem existing_file_shadows_api_route_witness :
    do_GET_parsed fs_tasks be0 "/tasks" [] =
      (Outcome.ok (serve_static_file fs_tasks "tasks"), []) :=
  existing_file_shadows_api_route fs_tasks be0 "/tasks" [] (by decide) (by decide) (by decide)

end Proxy
